import Mathlib

/-!
Verification of the browser-side client of the vehicle-complaint intake
system (frontend/js/api.js and the application logic in app.js).

The JavaScript is shallowly embedded: each network outcome (fetch result,
JSON-parse result, stream chunks, read errors) is an explicit input, DOM
side effects become an explicit effect list, and the global mutable state
(currentComplaint / currentCar / currentChatSession) becomes an explicit
state record threaded through the controller functions.
-/

namespace CarIssues

/-- The normalized result shape `{ success: true, data }` or
`{ success: false, error }` produced by every network helper. -/
inductive ApiResult (α : Type) where
  | success (data : α)
  | failure (error : String)
  deriving DecidableEq, Repr

/-- A parsed JSON response body as consumed by `apiRequest`: the optional
`message` field (read on the non-2xx path) plus the remaining fields,
abstracted to a string payload. -/
structure JsonBody where
  message : Option String
  payload : String
  deriving DecidableEq, Repr

/-- The possible outcomes of `await fetch(url, finalOptions)` followed by
`await response.json()` inside `apiRequest`'s try block:
the fetch itself can reject, the JSON parse can reject, or both succeed
and yield a response with an `ok` flag and a parsed body. -/
inductive FetchJsonOutcome where
  | fetchError (msg : String)
  | parseError (msg : String)
  | parsed (ok : Bool) (body : JsonBody)
  deriving DecidableEq, Repr

/-- Embedding of `apiRequest` (api.js lines 33-62).  The body is parsed
before the `ok` check; a non-2xx status throws
`new Error(data.message || 'API request failed')` (JavaScript `||`:
an absent or empty-string `message` is falsy and falls through to the
generic text), and the catch block returns `{ success:false, error:
error.message }`. -/
def apiRequest (outcome : FetchJsonOutcome) : ApiResult JsonBody :=
  match outcome with
  | .fetchError msg => .failure msg
  | .parseError msg => .failure msg
  | .parsed ok body =>
    if ok then
      .success body
    else
      match body.message with
      | some m => if m = "" then .failure "API request failed" else .failure m
      | none => .failure "API request failed"

/-- The `ai_response` object built by `sendChatMessage` on success. -/
structure AiResponse where
  message : String
  deriving DecidableEq, Repr

/-- The payload `{ ai_response: { message: fullResponse } }` returned by
`sendChatMessage` on success. -/
structure ChatData where
  ai_response : AiResponse
  deriving DecidableEq, Repr

/-- The possible outcomes of the fetch inside `sendChatMessage`: the fetch
rejects, or a response arrives with an `ok` flag, a finite sequence of
chunks (each already decoded to text by the streaming `TextDecoder`), and
optionally a read error thrown by `reader.read()` after those chunks. -/
inductive StreamOutcome where
  | fetchError (msg : String)
  | response (ok : Bool) (chunks : List String) (readError : Option String)
  deriving DecidableEq, Repr

/-- The `while (true)` read loop of `sendChatMessage` (api.js lines
119-129): each chunk is appended to the accumulator `fullResponse` and,
when a callback was supplied (`if (onChunk)`), the callback is invoked
with that chunk before the next read.  Returns the final accumulator and
the list of callback arguments in invocation order. -/
def streamReadLoop (onChunkProvided : Bool) :
    List String → String → List String → String × List String
  | [], fullResponse, calls => (fullResponse, calls)
  | chunk :: rest, fullResponse, calls =>
    streamReadLoop onChunkProvided rest (fullResponse ++ chunk)
      (if onChunkProvided then calls ++ [chunk] else calls)

/-- Embedding of `sendChatMessage` (api.js lines 99-137).  A non-ok status
throws `'API request failed'` before any read; a fetch or read exception
is caught and returned as `{ success:false, error: error.message }`,
discarding the accumulated text; on normal completion the accumulated
text is wrapped as `{ ai_response: { message } }`.  The second component
is the observable trace of callback invocations. -/
def sendChatMessage (outcome : StreamOutcome) (onChunkProvided : Bool) :
    ApiResult ChatData × List String :=
  match outcome with
  | .fetchError msg => (.failure msg, [])
  | .response ok chunks readError =>
    if ok then
      let loop := streamReadLoop onChunkProvided chunks "" []
      match readError with
      | some msg => (.failure msg, loop.2)
      | none => (.success ⟨⟨loop.1⟩⟩, loop.2)
    else
      (.failure "API request failed", [])

/-- Searches for the lazy (shortest) closing `**` of the regex
`\*\*(.*?)\*\*`: returns the captured characters before the first `**`
and the characters after it.  `.` does not match a newline in JavaScript,
so the scan fails on `\n`. -/
def findBoldClose : List Char → Option (List Char × List Char)
  | [] => none
  | '*' :: '*' :: rest => some ([], rest)
  | '\n' :: _ => none
  | c :: rest =>
    match findBoldClose rest with
    | some (inner, after) => some (c :: inner, after)
    | none => none

/-- Left-to-right scan of `.replace(/\*\*(.*?)\*\*/g, '<strong>$1</strong>')`:
at a literal `**`, the lazy capture runs to the first closing `**` on the
same line; on failure the regex engine advances one position.  Fuelled by
the input length: each step consumes at least one character, so
`replaceBoldAux cs.length cs` is the total scan. -/
def replaceBoldAux : Nat → List Char → List Char
  | 0, cs => cs
  | _ + 1, [] => []
  | fuel + 1, '*' :: '*' :: rest =>
    match findBoldClose rest with
    | some (inner, after) =>
      "<strong>".data ++ inner ++ "</strong>".data ++ replaceBoldAux fuel after
    | none => '*' :: replaceBoldAux fuel ('*' :: rest)
  | fuel + 1, c :: rest => c :: replaceBoldAux fuel rest

/-- Rule 1 of `renderMarkdown`: global bold substitution. -/
def replaceBold (cs : List Char) : List Char :=
  replaceBoldAux cs.length cs

/-- Splits a character list at `'\n'` line terminators (the multiline `^`
and `$` anchors of the heading and list-item regexes match at exactly
these positions). -/
def splitLines : List Char → List (List Char)
  | [] => [[]]
  | '\n' :: rest => [] :: splitLines rest
  | c :: rest =>
    match splitLines rest with
    | l :: ls => (c :: l) :: ls
    | [] => [[c]]

/-- Rejoins lines with the given separator, inverse of `splitLines` when
the separator is `['\n']`. -/
def joinLines (sep : List Char) : List (List Char) → List Char
  | [] => []
  | [l] => l
  | l :: ls => l ++ sep ++ joinLines sep ls

/-- One line under `.replace(/^### (.+)$/gm, '<h3>$1</h3>')`: the whole
line matches exactly when it starts with `### ` and the remainder is
non-empty (`.+`). -/
def headingLine (l : List Char) : List Char :=
  match l with
  | '#' :: '#' :: '#' :: ' ' :: rest =>
    if rest = [] then l else "<h3>".data ++ rest ++ "</h3>".data
  | _ => l

/-- One line under `.replace(/^- (.+)$/gm, '<li>$1</li>')`. -/
def listItemLine (l : List Char) : List Char :=
  match l with
  | '-' :: ' ' :: rest =>
    if rest = [] then l else "<li>".data ++ rest ++ "</li>".data
  | _ => l

/-- Rule 2 of `renderMarkdown`: the multiline heading substitution,
applied per line. -/
def replaceHeadings (cs : List Char) : List Char :=
  joinLines ['\n'] ((splitLines cs).map headingLine)

/-- Rule 3 of `renderMarkdown`: the multiline list-item substitution,
applied per line. -/
def replaceListItems (cs : List Char) : List Char :=
  joinLines ['\n'] ((splitLines cs).map listItemLine)

/-- Rule 4 of `renderMarkdown`: `.replace(/\n/g, '<br>')`. -/
def replaceNewlines : List Char → List Char
  | [] => []
  | '\n' :: rest => "<br>".data ++ replaceNewlines rest
  | c :: rest => c :: replaceNewlines rest

/-- Embedding of `renderMarkdown` (app.js): the four substitutions in
their fixed source order — bold, then `### ` headings, then `- ` list
items, then newlines. -/
def renderMarkdown (text : String) : String :=
  ⟨replaceNewlines (replaceListItems (replaceHeadings (replaceBold text.data)))⟩

/-- A complaint as consumed by the client (fields read by app.js). -/
structure Complaint where
  id : Nat
  category_display : String
  predicted_category : String
  prediction_confidence : ℚ
  analysis : String
  complaint_text : String
  crash : Bool
  fire : Bool
  created_at : String
  deriving DecidableEq, Repr

/-- A car as consumed by the client, with the owning customer's name
(`car.customer.name`). -/
structure Car where
  id : Nat
  display_name : String
  license_plate : String
  customer_name : String
  deriving DecidableEq, Repr

/-- A chat session as stored in `currentChatSession` (only its `id` is
read by the controller functions). -/
structure ChatSession where
  id : Nat
  deriving DecidableEq, Repr

/-- The body of `/cars/{id}/complaint_history/` as consumed by
`displaySearchResults`. -/
structure HistoryData where
  car : Car
  complaints : List Complaint
  deriving DecidableEq, Repr

/-- The `data` object inside a quick-submit response:
`result.data.data.complaint` and `result.data.data.car`. -/
structure SubmitResponseData where
  complaint : Complaint
  car : Car
  deriving DecidableEq, Repr

/-- The quick-submit response body: `result.data`, whose `data` field
holds the complaint and car. -/
structure SubmitEnvelope where
  data : SubmitResponseData
  deriving DecidableEq, Repr

/-- The raw text (`.value`) and checkbox (`.checked`) state of the
complaint form's input elements as read by `handleComplaintSubmit`. -/
structure FormInputs where
  customerName : String
  customerEmail : String
  customerPhone : String
  licensePlate : String
  carMake : String
  carModel : String
  carYearText : String
  carMileageText : String
  complaintText : String
  crash : Bool
  fire : Bool
  deriving DecidableEq, Repr

/-- Accumulates the leading decimal-digit run of a character list, most
significant digit first, stopping at the first non-digit. -/
def parseDigitsAcc : List Char → Nat → Nat
  | [], acc => acc
  | c :: rest, acc =>
    if c.isDigit then parseDigitsAcc rest (acc * 10 + (c.toNat - 48)) else acc

/-- Model of JavaScript `parseInt(string)` on the decimal fragment used by
the form's numeric inputs: skip leading whitespace, an optional sign, then
the longest leading digit run; `none` models `NaN` when no digit follows.
(The hexadecimal `0x` autodetection of `parseInt` is not modelled; the
form fields are plain numeric inputs.) -/
def parseIntJS (s : String) : Option Int :=
  let cs := s.data.dropWhile Char.isWhitespace
  match cs with
  | '-' :: rest =>
    match rest with
    | c :: _ => if c.isDigit then some (-(parseDigitsAcc rest 0 : Int)) else none
    | [] => none
  | '+' :: rest =>
    match rest with
    | c :: _ => if c.isDigit then some ((parseDigitsAcc rest 0 : Int)) else none
    | [] => none
  | c :: _ => if c.isDigit then some ((parseDigitsAcc cs 0 : Int)) else none
  | [] => none

/-- JavaScript `parseInt(...) || undefined` on a number-or-NaN value:
`NaN` and `0` are falsy, so both become `undefined` (here `none`). -/
def jsOrUndefinedInt (v : Option Int) : Option Int :=
  match v with
  | some n => if n = 0 then none else some n
  | none => none

/-- JavaScript `parseInt(...) || 0` on a number-or-NaN value: `NaN` and
`0` are falsy, so both become `0`. -/
def jsOrZeroInt (v : Option Int) : Int :=
  match v with
  | some n => if n = 0 then 0 else n
  | none => 0

/-- The serialized quick-submit request body.  `car_year` is `Option`
because `parseInt(...) || undefined` can leave the field unset (and
`JSON.stringify` then drops it). -/
structure ComplaintFormData where
  customer_name : String
  customer_email : String
  customer_phone : String
  license_plate : String
  car_make : String
  car_model : String
  car_year : Option Int
  car_mileage : Int
  complaint_text : String
  crash : Bool
  fire : Bool
  deriving DecidableEq, Repr

/-- The `formData` object literal built at the top of
`handleComplaintSubmit` (app.js): raw string fields are passed through,
`car_year` is `parseInt(...) || undefined` and `car_mileage` is
`parseInt(...) || 0`. -/
def buildFormData (f : FormInputs) : ComplaintFormData :=
  { customer_name := f.customerName
    customer_email := f.customerEmail
    customer_phone := f.customerPhone
    license_plate := f.licensePlate
    car_make := f.carMake
    car_model := f.carModel
    car_year := jsOrUndefinedInt (parseIntJS f.carYearText)
    car_mileage := jsOrZeroInt (parseIntJS f.carMileageText)
    complaint_text := f.complaintText
    crash := f.crash
    fire := f.fire }

/-- The network operations a controller can issue, with their arguments
(each maps to one helper in api.js). -/
inductive ApiCall where
  | submitComplaint (formData : ComplaintFormData)
  | searchCarByPlate (plate : String)
  | getCarComplaintHistory (carId : Nat)
  | createChatSession (complaintId : Nat)
  | getChatSession (sessionId : Nat)
  | closeChatSession (sessionId : Nat)
  deriving DecidableEq, Repr

/-- Observable side effects of the controller functions, in program
order: alert dialogs, network calls, the loading spinner, and writes to
the result/search areas of the page. -/
inductive Effect where
  | alert (msg : String)
  | apiCall (call : ApiCall)
  | showLoading (visible : Bool)
  | renderComplaintResult (d : SubmitResponseData)
  | renderSearchResults (d : HistoryData)
  | renderSearchNotFound
  deriving DecidableEq, Repr

/-- The global mutable state of app.js (`currentComplaint`,
`currentChatSession`, `currentCar`) plus the visibility of the chat
panel. -/
structure AppState where
  currentComplaint : Option Complaint
  currentChatSession : Option ChatSession
  currentCar : Option Car
  chatPanelVisible : Bool
  deriving DecidableEq, Repr

/-- Embedding of `getConfidenceColor` (app.js): confidence scores are
IEEE doubles in the source; they are modelled as rationals, on which the
literals `0.8` and `0.6` and the two `>=` comparisons behave
identically. -/
def getConfidenceColor (confidence : ℚ) : String :=
  if confidence ≥ 0.8 then "#10b981"
  else if confidence ≥ 0.6 then "#f59e0b"
  else "#ef4444"

/-- Embedding of `handleComplaintSubmit` (app.js): build `formData`,
validate that at least one of email and phone is non-empty (JavaScript
`!s` on a string tests emptiness), and otherwise submit; on success store
the complaint and car and render the result, on failure alert the error
text.  The submit result is an input since it comes from the network. -/
def handleComplaintSubmit (f : FormInputs)
    (result : ApiResult SubmitEnvelope) (st : AppState) :
    AppState × List Effect :=
  let formData := buildFormData f
  if formData.customer_email = "" ∧ formData.customer_phone = "" then
    (st, [.alert "Please provide at least an email or phone number."])
  else
    let callEffects : List Effect :=
      [.showLoading true, .apiCall (.submitComplaint formData), .showLoading false]
    match result with
    | .success env =>
      ({ st with currentComplaint := some env.data.complaint,
                 currentCar := some env.data.car },
       callEffects ++ [.renderComplaintResult env.data])
    | .failure e =>
      (st, callEffects ++ [.alert ("Error submitting complaint: " ++ e)])

/-- Embedding of `closeChat` (app.js): no-op without a stored session or
without confirmation; otherwise issue the close request, then hide the
chat panel and clear the session *unconditionally* — `closeResult` is an
input but, as in the source, is never inspected. -/
def closeChat (st : AppState) (confirmed : Bool)
    (closeResult : ApiResult JsonBody) : AppState × List Effect :=
  match st.currentChatSession with
  | none => (st, [])
  | some session =>
    if confirmed then
      ({ st with chatPanelVisible := false, currentChatSession := none },
       [.showLoading true, .apiCall (.closeChatSession session.id),
        .showLoading false, .alert "Chat session closed successfully"])
    else
      (st, [])

/-- Model of JavaScript `String.prototype.trim()`: strip whitespace from
both ends. -/
def jsTrim (s : String) : String :=
  ⟨((s.data.dropWhile Char.isWhitespace).reverse.dropWhile Char.isWhitespace).reverse⟩

/-- Embedding of `searchVehicle` (app.js): trim the plate text, alert on
empty input, otherwise look up the car; on success issue the dependent
history call and render its data only `if (historyResult.success)` — with
no else branch; on lookup failure render the not-found card.  The two
network results are inputs. -/
def searchVehicle (plateText : String) (searchResult : ApiResult Car)
    (historyResult : ApiResult HistoryData) : List Effect :=
  let licensePlate := jsTrim plateText
  if licensePlate = "" then
    [.alert "Please enter a license plate number"]
  else
    [.showLoading true, .apiCall (.searchCarByPlate licensePlate),
     .showLoading false] ++
    match searchResult with
    | .success car =>
      [.apiCall (.getCarComplaintHistory car.id)] ++
      match historyResult with
      | .success d => [.renderSearchResults d]
      | .failure _ => []
    | .failure _ => [.renderSearchNotFound]

theorem join_nil : String.join ([] : List String) = "" := rfl

theorem join_cons (s : String) (l : List String) :
    String.join (s :: l) = s ++ String.join l := by
  apply String.ext
  simp [String.join_eq]

theorem streamReadLoop_spec (cb : Bool) :
    ∀ (l : List String) (acc : String) (calls : List String),
      streamReadLoop cb l acc calls =
        (acc ++ String.join l, calls ++ (if cb then l else []))
  | [], acc, calls => by
    simp [streamReadLoop, join_nil]
  | c :: rest, acc, calls => by
    rw [streamReadLoop, streamReadLoop_spec cb rest]
    cases cb <;> simp [join_cons, String.append_assoc]

/-- C1: for every successful run of the streaming reader over a finite
chunk sequence whose decoded concatenation is T, `sendChatMessage`
returns a success result wrapping T as the assistant message, and the
caller-supplied callback (when provided) is invoked once per decoded
chunk in stream order, so its arguments concatenate to T. -/
theorem sendChatMessage_streaming_accumulates (chunks : List String)
    (T : String) (cb : Bool) (h : String.join chunks = T) :
    (sendChatMessage (.response true chunks none) cb).1 = .success ⟨⟨T⟩⟩ ∧
    (cb = true →
      (sendChatMessage (.response true chunks none) cb).2 = chunks ∧
      String.join (sendChatMessage (.response true chunks none) cb).2 = T) := by
  subst h
  simp [sendChatMessage, streamReadLoop_spec]
  intro hcb
  subst hcb
  simp

/-- Witness for C1 on a concrete three-chunk stream. -/
theorem sendChatMessage_streaming_accumulates_witness :
    (sendChatMessage (.response true ["Hel", "lo ", "world"] none) true).1 =
      .success ⟨⟨"Hello world"⟩⟩ ∧
    (sendChatMessage (.response true ["Hel", "lo ", "world"] none) true).2 =
      ["Hel", "lo ", "world"] ∧
    String.join (sendChatMessage (.response true ["Hel", "lo ", "world"] none) true).2 =
      "Hello world" := by
  have h := sendChatMessage_streaming_accumulates ["Hel", "lo ", "world"]
    "Hello world" true rfl
  exact ⟨h.1, (h.2 rfl).1, (h.2 rfl).2⟩

/-- C2: the streaming reader returns a failure without reading the stream
when the response status is not ok, and any exception during fetch or
read yields a failure result carrying the exception's message, with no
partial accumulated text in the result. -/
theorem sendChatMessage_failure_paths (msg : String) (chunks : List String)
    (readErr : Option String) (cb : Bool) :
    sendChatMessage (.fetchError msg) cb = (.failure msg, []) ∧
    sendChatMessage (.response false chunks readErr) cb =
      (.failure "API request failed", []) ∧
    (sendChatMessage (.response true chunks (some msg)) cb).1 = .failure msg := by
  refine ⟨rfl, ?_, ?_⟩ <;> simp [sendChatMessage]

/-- C3 counterexample: a non-2xx response whose body carries the
empty-string `message` yields the generic fallback error text, not that
message (JavaScript `data.message || '...'` treats `""` as falsy). -/
theorem apiRequest_empty_message_counterexample :
    (⟨some "", "body"⟩ : JsonBody).message = some "" ∧
    apiRequest (.parsed false ⟨some "", "body"⟩) ≠ .failure "" ∧
    apiRequest (.parsed false ⟨some "", "body"⟩) = .failure "API request failed" := by
  decide

/-- C3 (amended): on a non-2xx response, a *non-empty* `message` field
becomes the failure's error text; an absent or empty `message` yields the
generic fallback text. -/
theorem apiRequest_error_message (body : JsonBody) :
    (∀ m, body.message = some m → m ≠ "" →
      apiRequest (.parsed false body) = .failure m) ∧
    (body.message = none ∨ body.message = some "" →
      apiRequest (.parsed false body) = .failure "API request failed") := by
  constructor
  · intro m hm hne
    simp [apiRequest, hm, hne]
  · rintro (hm | hm) <;> simp [apiRequest, hm]

/-- Witness for C3 (amended) on concrete bodies with and without a
message field. -/
theorem apiRequest_error_message_witness :
    apiRequest (.parsed false ⟨some "boom", "x"⟩) = .failure "boom" ∧
    apiRequest (.parsed false ⟨none, "y"⟩) = .failure "API request failed" :=
  ⟨(apiRequest_error_message ⟨some "boom", "x"⟩).1 "boom" rfl (by decide),
   (apiRequest_error_message ⟨none, "y"⟩).2 (Or.inl rfl)⟩

/-- C4: `apiRequest` always returns a value of the tagged-union result
shape (success with data, or failure with an error string) and never
throws; on a fetch or parse exception the failure carries the exception's
message. -/
theorem apiRequest_result_shape :
    (∀ o : FetchJsonOutcome,
      (∃ d, apiRequest o = .success d) ∨ (∃ e, apiRequest o = .failure e)) ∧
    (∀ msg, apiRequest (.fetchError msg) = .failure msg ∧
            apiRequest (.parseError msg) = .failure msg) := by
  constructor
  · intro o
    match o with
    | .fetchError m => exact Or.inr ⟨m, rfl⟩
    | .parseError m => exact Or.inr ⟨m, rfl⟩
    | .parsed true body => exact Or.inl ⟨body, rfl⟩
    | .parsed false body =>
      refine Or.inr ?_
      cases hm : body.message with
      | none => exact ⟨"API request failed", by simp [apiRequest, hm]⟩
      | some m =>
        by_cases he : m = ""
        · exact ⟨"API request failed", by simp [apiRequest, hm, he]⟩
        · exact ⟨m, by simp [apiRequest, hm, he]⟩
  · intro msg
    exact ⟨rfl, rfl⟩

/-- C5: `renderMarkdown` is the pure composition of the four substitution
rules in the fixed source order (bold, headings, list items, newlines),
and maps the four canonical examples as the spec states. -/
theorem renderMarkdown_rules :
    (∀ t : String, renderMarkdown t =
      ⟨replaceNewlines (replaceListItems (replaceHeadings (replaceBold t.data)))⟩) ∧
    renderMarkdown "**x**" = "<strong>x</strong>" ∧
    renderMarkdown "### Title" = "<h3>Title</h3>" ∧
    renderMarkdown "- item" = "<li>item</li>" ∧
    renderMarkdown "a\nb" = "a<br>b" :=
  ⟨fun _ => rfl, rfl, rfl, rfl, rfl⟩

/-- C6: once the user confirms and a session is stored, `closeChat`
clears the stored session and hides the chat panel regardless of the
close request's result. -/
theorem closeChat_resets_state (st : AppState) (session : ChatSession)
    (r : ApiResult JsonBody) (hs : st.currentChatSession = some session) :
    (closeChat st true r).1.currentChatSession = none ∧
    (closeChat st true r).1.chatPanelVisible = false := by
  simp [closeChat, hs]

/-- Witness for C6 with a stored session and a *failed* close request. -/
theorem closeChat_resets_state_witness :
    (closeChat ⟨none, some ⟨7⟩, none, true⟩ true
      (.failure "network down")).1.currentChatSession = none ∧
    (closeChat ⟨none, some ⟨7⟩, none, true⟩ true
      (.failure "network down")).1.chatPanelVisible = false :=
  closeChat_resets_state ⟨none, some ⟨7⟩, none, true⟩ ⟨7⟩
    (.failure "network down") rfl

/-- C7: `getConfidenceColor` returns the green tier for confidence ≥ 0.8,
the amber tier for 0.6 ≤ confidence < 0.8, and the red tier below 0.6,
with both thresholds inclusive on the high side. -/
theorem getConfidenceColor_tiers (c : ℚ) :
    (c ≥ 0.8 → getConfidenceColor c = "#10b981") ∧
    (0.6 ≤ c ∧ c < 0.8 → getConfidenceColor c = "#f59e0b") ∧
    (c < 0.6 → getConfidenceColor c = "#ef4444") := by
  refine ⟨fun h => ?_, fun h => ?_, fun h => ?_⟩ <;>
    simp only [getConfidenceColor]
  · rw [if_pos h]
  · rw [if_neg (not_le.mpr h.2), if_pos h.1]
  · rw [if_neg (not_le.mpr (lt_trans h (by norm_num))), if_neg (not_le.mpr h)]

/-- Witness for C7 at the boundary values 0.8, 0.65 and 0.4. -/
theorem getConfidenceColor_tiers_witness :
    getConfidenceColor 0.8 = "#10b981" ∧
    getConfidenceColor 0.65 = "#f59e0b" ∧
    getConfidenceColor 0.4 = "#ef4444" :=
  ⟨(getConfidenceColor_tiers 0.8).1 (by norm_num),
   (getConfidenceColor_tiers 0.65).2.1 (by norm_num),
   (getConfidenceColor_tiers 0.4).2.2 (by norm_num)⟩

/-- C8: with both email and phone empty, `handleComplaintSubmit` shows
the validation alert and issues no network call; with at least one
contact field non-empty, the submit call is issued. -/
theorem handleComplaintSubmit_contact_validation (f : FormInputs)
    (r : ApiResult SubmitEnvelope) (st : AppState) :
    (f.customerEmail = "" ∧ f.customerPhone = "" →
      handleComplaintSubmit f r st =
        (st, [.alert "Please provide at least an email or phone number."]) ∧
      ∀ call, Effect.apiCall call ∉ (handleComplaintSubmit f r st).2) ∧
    (¬(f.customerEmail = "" ∧ f.customerPhone = "") →
      Effect.apiCall (.submitComplaint (buildFormData f)) ∈
        (handleComplaintSubmit f r st).2) := by
  constructor
  · rintro ⟨he, hp⟩
    constructor
    · simp [handleComplaintSubmit, buildFormData, he, hp]
    · intro call
      simp [handleComplaintSubmit, buildFormData, he, hp]
  · intro h
    have hcond :
        ¬((buildFormData f).customer_email = "" ∧
          (buildFormData f).customer_phone = "") := by
      simpa [buildFormData] using h
    cases r with
    | success env => simp [handleComplaintSubmit, hcond]
    | failure e => simp [handleComplaintSubmit, hcond]

/-- Witness for C8: an empty-contact form short-circuits to the alert,
and a form with an email reaches the submit call. -/
theorem handleComplaintSubmit_contact_validation_witness :
    handleComplaintSubmit
        ⟨"n", "", "", "p", "m", "o", "2020", "100", "t", false, false⟩
        (.failure "down") ⟨none, none, none, false⟩ =
      (⟨none, none, none, false⟩,
       [.alert "Please provide at least an email or phone number."]) ∧
    Effect.apiCall (.submitComplaint (buildFormData
        ⟨"n", "a@b.c", "", "p", "m", "o", "2020", "100", "t", false, false⟩)) ∈
      (handleComplaintSubmit
        ⟨"n", "a@b.c", "", "p", "m", "o", "2020", "100", "t", false, false⟩
        (.failure "down") ⟨none, none, none, false⟩).2 :=
  ⟨((handleComplaintSubmit_contact_validation _ _ _).1 ⟨rfl, rfl⟩).1,
   (handleComplaintSubmit_contact_validation _ _ _).2 (by decide)⟩

/-- C9 counterexample: the year text "0" parses to the integer 0, yet is
serialized as unset (`parseInt(...) || undefined` treats 0 as falsy),
refuting that every parsed numeric field is sent with its parsed value. -/
theorem formData_year_zero_counterexample :
    parseIntJS "0" = some 0 ∧
    (buildFormData
      ⟨"n", "e@x", "", "lp", "mk", "md", "0", "5", "t", false, false⟩).car_year ≠
        some 0 ∧
    (buildFormData
      ⟨"n", "e@x", "", "lp", "mk", "md", "0", "5", "t", false, false⟩).car_year =
        none := by
  decide

/-- C9 (amended): a year text parsing to NaN *or to 0* is sent as unset
and a nonzero parsed year is sent as parsed; a mileage text parsing to
NaN is sent as 0 and any parsed mileage is sent as its parsed value. -/
theorem formData_numeric_fallbacks (f : FormInputs) :
    (parseIntJS f.carYearText = none → (buildFormData f).car_year = none) ∧
    (parseIntJS f.carYearText = some 0 → (buildFormData f).car_year = none) ∧
    (∀ n : Int, parseIntJS f.carYearText = some n → n ≠ 0 →
      (buildFormData f).car_year = some n) ∧
    (parseIntJS f.carMileageText = none → (buildFormData f).car_mileage = 0) ∧
    (∀ n : Int, parseIntJS f.carMileageText = some n →
      (buildFormData f).car_mileage = n) := by
  refine ⟨fun h => ?_, fun h => ?_, fun n h hn => ?_, fun h => ?_, fun n h => ?_⟩
  · simp [buildFormData, jsOrUndefinedInt, h]
  · simp [buildFormData, jsOrUndefinedInt, h]
  · simp [buildFormData, jsOrUndefinedInt, h, hn]
  · simp [buildFormData, jsOrZeroInt, h]
  · by_cases hn : n = 0
    · simp [buildFormData, jsOrZeroInt, h, hn]
    · simp [buildFormData, jsOrZeroInt, h, hn]

/-- Witness for C9 (amended) on concrete year and mileage texts. -/
theorem formData_numeric_fallbacks_witness :
    (buildFormData
      ⟨"n", "e", "", "lp", "mk", "md", "1999", "abc", "t", false, false⟩).car_year =
        some 1999 ∧
    (buildFormData
      ⟨"n", "e", "", "lp", "mk", "md", "1999", "abc", "t", false, false⟩).car_mileage =
        0 ∧
    (buildFormData
      ⟨"n", "e", "", "lp", "mk", "md", "xyz", "12000", "t", false, false⟩).car_year =
        none ∧
    (buildFormData
      ⟨"n", "e", "", "lp", "mk", "md", "xyz", "12000", "t", false, false⟩).car_mileage =
        12000 :=
  ⟨(formData_numeric_fallbacks _).2.2.1 1999 (by decide) (by decide),
   (formData_numeric_fallbacks _).2.2.2.1 (by decide),
   (formData_numeric_fallbacks _).1 (by decide),
   (formData_numeric_fallbacks _).2.2.2.2 12000 (by decide)⟩

/-- C10: when the plate lookup succeeds but the dependent history call
fails, `searchVehicle` stops after the two network calls: no results are
rendered, no not-found card is shown, and no alert is raised — the
failure is silently swallowed. -/
theorem searchVehicle_swallows_history_failure (plateText : String)
    (car : Car) (err : String) (h : jsTrim plateText ≠ "") :
    searchVehicle plateText (.success car) (.failure err) =
      [.showLoading true, .apiCall (.searchCarByPlate (jsTrim plateText)),
       .showLoading false, .apiCall (.getCarComplaintHistory car.id)] ∧
    (∀ msg, Effect.alert msg ∉ searchVehicle plateText (.success car) (.failure err)) ∧
    (∀ d, Effect.renderSearchResults d ∉
      searchVehicle plateText (.success car) (.failure err)) ∧
    Effect.renderSearchNotFound ∉
      searchVehicle plateText (.success car) (.failure err) := by
  have he : searchVehicle plateText (.success car) (.failure err) =
      [.showLoading true, .apiCall (.searchCarByPlate (jsTrim plateText)),
       .showLoading false, .apiCall (.getCarComplaintHistory car.id)] := by
    simp [searchVehicle, h]
  refine ⟨he, ?_, ?_, ?_⟩ <;> simp [he]

/-- Witness for C10 on a concrete plate, car and failed history call. -/
theorem searchVehicle_swallows_history_failure_witness :
    searchVehicle " AB-123 " (.success ⟨5, "Toyota Corolla", "AB-123", "Sam"⟩)
        (.failure "history down") =
      [.showLoading true, .apiCall (.searchCarByPlate (jsTrim " AB-123 ")),
       .showLoading false, .apiCall (.getCarComplaintHistory 5)] :=
  (searchVehicle_swallows_history_failure " AB-123 "
    ⟨5, "Toyota Corolla", "AB-123", "Sam"⟩ "history down" (by decide)).1

end CarIssues
